import Mathlib

/-!
Verification development for the Hey-R2 pan-tracking robot control core.

Shallow embedding of the repository code:
* `src/main.py` — the `StateManager` flag store and the `process_command`
  voice-command dispatcher.
* `src/hardware/motor_threaded.py` — the threaded motor: EMA filter plus
  deadband target mapper (`set_target_from_offset`) over ℚ, and the 100 Hz
  tanh interpolation loop (`_control_loop`) modelled over ℝ.
* `src/hardware/motor_fast.py` — the direct PD motor with EMA and deadband.
* `src/hardware/motor.py` — the direct PID motor with integer angle clamping.

Machine floats are modelled as exact rationals (or reals where `math.tanh`
appears); fields of the Python objects become structure fields, and methods
become functions from the old state to the new state together with any
emitted actuator/sound commands.
-/

namespace HeyR2

/-! ## Substring test (Python `pat in s` on strings) -/

/-- Helper for the substring test: does `pat` occur as a contiguous
sublist of the second argument? -/
def containsAux (pat : List Char) : List Char → Bool
  | [] => pat.isEmpty
  | c :: rest => pat.isPrefixOf (c :: rest) || containsAux pat rest

/-- Python membership test `pat in s` on strings. -/
def strContains (s pat : String) : Bool :=
  containsAux pat.toList s.toList

/-- Python `str.lower()` (ASCII commands only are matched against it). -/
def strLower (s : String) : String :=
  ⟨s.toList.map Char.toLower⟩

/-! ## src/main.py — StateManager and process_command -/

/-- The shared flag store of `src/main.py` (`StateManager`).  The
`threading.Event` used for shutdown is modelled by the Boolean
`shutdown_requested` (set = `true`). -/
structure StateManager where
  tracking_enabled : Bool
  muted : Bool
  shutdown_requested : Bool
deriving DecidableEq, Repr

/-- Initial state built by `StateManager.__init__`. -/
def StateManager.init : StateManager :=
  { tracking_enabled := true, muted := false, shutdown_requested := false }

/-- `StateManager.should_shutdown`. -/
def StateManager.should_shutdown (s : StateManager) : Bool :=
  s.shutdown_requested

/-- `StateManager.request_shutdown` (sets the event; there is no clearing
operation anywhere in the repository). -/
def StateManager.request_shutdown (s : StateManager) : StateManager :=
  { s with shutdown_requested := true }

/-- Result of one `process_command` call: the updated flags, the list of
sound effects passed to `speaker.speak`, and the returned handled flag. -/
structure DispatchResult where
  state : StateManager
  effects : List String
  handled : Bool
deriving DecidableEq, Repr

/-- `process_command` from `src/main.py` (debug printing omitted; the
`speaker.speak` calls are collected in `effects`). -/
def process_command (command_text : String) (s : StateManager) : DispatchResult :=
  let command_lower := strLower command_text
  if s.muted then
    if strContains command_lower "unmute" then
      { state := { s with muted := false }, effects := ["acknowledge"], handled := true }
    else
      { state := s, effects := [], handled := true }
  else if strContains command_lower "mute" then
    { state := { s with muted := true }, effects := [], handled := true }
  else if strContains command_lower "start tracking" || strContains command_lower "track me" then
    { state := { s with tracking_enabled := true }, effects := ["acknowledge"], handled := true }
  else if strContains command_lower "stop tracking" then
    { state := { s with tracking_enabled := false }, effects := ["acknowledge"], handled := true }
  else
    { state := s, effects := [], handled := false }

/-- The operations of the running system that mutate the shared flags:
`request_shutdown` (tracker loop on quit, main thread on interrupt) and
`process_command` (audio loop).  No other code writes the flags. -/
inductive SysOp where
  | requestShutdown
  | processCommand (text : String)

/-- Apply one flag-mutating operation. -/
def applyOp (s : StateManager) : SysOp → StateManager
  | .requestShutdown => s.request_shutdown
  | .processCommand t => (process_command t s).state

/-- Apply a finite trace of flag-mutating operations in order. -/
def applyOps (s : StateManager) : List SysOp → StateManager
  | [] => s
  | op :: rest => applyOps (applyOp s op) rest

/-! ## src/hardware/motor_threaded.py -/

namespace MotorThreaded

def CAM_FOV : ℚ := 77

def IMG_WIDTH : ℚ := 640

def pixels_per_degree : ℚ := IMG_WIDTH / CAM_FOV

def ema_alpha : ℚ := 2/10

def MIN_MOVEMENT : ℚ := 1/10

def MAX_SPEED : ℚ := 150

def DEADBAND_PIXELS : ℚ := 15

def sigmoid_scale : ℚ := 10

def Kp : ℚ := 15/100

/-- The mutable fields of the threaded `Motor` relevant to target mapping. -/
structure State where
  target_angle : ℚ
  current_angle : ℚ
  ema_offset : ℚ
deriving DecidableEq, Repr

/-- `Motor.clamp_angle`: `max(0.0, min(180.0, angle))` — float-preserving. -/
def clamp_angle (angle : ℚ) : ℚ := max 0 (min 180 angle)

/-- `Motor.angle_to_duty_cycle`. -/
def angle_to_duty_cycle (angle : ℚ) : ℚ := 5/2 + angle / 180 * 10

/-- `Motor.set_target_from_offset`: EMA filter, deadband, proportional
mapping, clamped store into `target_angle`.  Never touches the actuator. -/
def set_target_from_offset (s : State) (pixel_offset : ℚ) : State :=
  let ema := ema_alpha * pixel_offset + (1 - ema_alpha) * s.ema_offset
  if |ema| < DEADBAND_PIXELS then
    { s with ema_offset := ema }
  else
    { s with ema_offset := ema,
             target_angle := clamp_angle (s.current_angle + ema / pixels_per_degree * Kp) }

/-- Tick period of `_control_loop` (100 Hz). -/
noncomputable def dt : ℝ := 1 / 100

/-- Real-valued clamp used inside the control loop. -/
noncomputable def clampR (angle : ℝ) : ℝ := max 0 (min 180 angle)

/-- The step computed by one `_control_loop` iteration from the error:
`tanh(error / sigmoid_scale) * MAX_SPEED * dt`. -/
noncomputable def stepOf (error : ℝ) : ℝ :=
  Real.tanh (error / (sigmoid_scale : ℝ)) * (MAX_SPEED : ℝ) * dt

/-- One tick of `Motor._control_loop`: returns the new `current_angle`
and whether a PWM command was issued this tick. -/
noncomputable def tick (target current : ℝ) : ℝ × Bool :=
  if |stepOf (target - current)| > (MIN_MOVEMENT : ℝ) * dt then
    (clampR (current + stepOf (target - current)), true)
  else
    (current, false)

/-- Iterated control-loop ticks with a fixed target. -/
noncomputable def iterTick (target current : ℝ) : ℕ → ℝ
  | 0 => current
  | n + 1 => (tick target (iterTick target current n)).1

end MotorThreaded

/-! ## src/hardware/motor_fast.py -/

namespace MotorFast

def Kp : ℚ := 6/100

def Kd : ℚ := 8/1000

def ema_alpha : ℚ := 25/100

def DEADBAND_PIXELS : ℚ := 10

def MAX_ANGLE_CHANGE : ℚ := 1

def pixels_per_degree : ℚ := 640 / 77

/-- Mutable fields of the `motor_fast` Motor. -/
structure State where
  current_angle : ℚ
  previous_error : ℚ
  ema_offset : ℚ
deriving DecidableEq, Repr

def clamp_angle (angle : ℚ) : ℚ := max 0 (min 180 angle)

def angle_to_duty_cycle (angle : ℚ) : ℚ := 5/2 + angle / 180 * 10

/-- `Motor.move_by_offset_pid` of `motor_fast.py`: EMA filter, deadband
(resetting the derivative memory), PD step, rate limit, clamp, PWM
command.  Returns the new state, the duty-cycle command issued
(`none` in the deadband branch), and the Boolean return value. -/
def move_by_offset_pid (s : State) (pixel_offset : ℚ) : State × Option ℚ × Bool :=
  let ema := ema_alpha * pixel_offset + (1 - ema_alpha) * s.ema_offset
  if |ema| < DEADBAND_PIXELS then
    ({ s with ema_offset := ema, previous_error := 0 }, none, false)
  else
    let error := ema / pixels_per_degree
    let P := Kp * error
    let D := Kd * (error - s.previous_error)
    let angle_change := max (-MAX_ANGLE_CHANGE) (min MAX_ANGLE_CHANGE (P + D))
    let newAngle := clamp_angle (s.current_angle + angle_change)
    ({ current_angle := newAngle, previous_error := error, ema_offset := ema },
     some (angle_to_duty_cycle newAngle), true)

end MotorFast

/-! ## src/hardware/motor.py -/

namespace MotorPID

def CAM_FOV : ℚ := 77

def IMG_WIDTH : ℚ := 640

def pixels_per_degree : ℚ := IMG_WIDTH / CAM_FOV

def MAX_SPEED_PER_UPDATE : ℚ := 5

def MIN_MOVEMENT : ℚ := 1/2

/-- The `PIDController` object of `motor.py`: gains, filtering and
anti-windup parameters, plus mutable memory. -/
structure PIDController where
  Kp : ℚ
  Ki : ℚ
  Kd : ℚ
  derivative_filter : ℚ
  integral_limit : ℚ
  prev_error : ℚ
  prev_derivative : ℚ
  integral : ℚ
deriving DecidableEq, Repr

/-- `PIDController.__init__` with the default filter and windup limit and
zeroed memory. -/
def PIDController.make (Kp Ki Kd : ℚ) : PIDController :=
  { Kp := Kp, Ki := Ki, Kd := Kd, derivative_filter := 8/10, integral_limit := 50,
    prev_error := 0, prev_derivative := 0, integral := 0 }

/-- `PIDController.update`: returns the control output and the updated
controller memory. -/
def PIDController.update (pid : PIDController) (error : ℚ) (dt : ℚ) : ℚ × PIDController :=
  let P := pid.Kp * error
  let integral1 := max (-pid.integral_limit) (min pid.integral_limit (pid.integral + error * dt))
  let I := pid.Ki * integral1
  let filtered_derivative := pid.derivative_filter * ((error - pid.prev_error) / dt)
    + (1 - pid.derivative_filter) * pid.prev_derivative
  let D := pid.Kd * filtered_derivative
  (P + I + D,
   { pid with integral := integral1, prev_error := error,
              prev_derivative := filtered_derivative })

/-- `PIDController.reset`. -/
def PIDController.reset (pid : PIDController) : PIDController :=
  { pid with prev_error := 0, prev_derivative := 0, integral := 0 }

/-- Python `int()` applied to a rational: truncation toward zero. -/
def pyInt (q : ℚ) : ℤ := if q < 0 then ⌈q⌉ else ⌊q⌋

/-- `Motor.clamp_angle` of `motor.py`: `int(max(0, min(180, angle)))` —
unlike the threaded variant this returns an integer. -/
def clamp_angle (angle : ℚ) : ℤ := pyInt (max 0 (min 180 angle))

def angle_to_duty_cycle (angle : ℚ) : ℚ := 5/2 + angle / 180 * 10

/-- The rate limit applied by `move_by_offset_pid` to the PID output. -/
def rate_limit (x : ℚ) : ℚ :=
  max (-MAX_SPEED_PER_UPDATE) (min MAX_SPEED_PER_UPDATE x)

/-- Mutable fields of the `motor.py` Motor (position file omitted: the
persisted value mirrors `current_angle` and is never read back while
running). -/
structure State where
  current_angle : ℚ
  pid : PIDController
deriving DecidableEq, Repr

/-- `Motor.set_angle`: clamp, command, store.  Returns the new state and
the duty-cycle command issued. -/
def set_angle (s : State) (angle : ℚ) : State × ℚ :=
  ({ s with current_angle := ((clamp_angle angle : ℤ) : ℚ) },
   angle_to_duty_cycle ((clamp_angle angle : ℤ) : ℚ))

/-- `Motor.move_slow` final state: `current_angle` becomes the integer
clamped target (the intermediate stepped commands are not modelled). -/
def move_slow (s : State) (target : ℚ) : State :=
  { s with current_angle := ((clamp_angle target : ℤ) : ℚ) }

/-- `Motor.move_by_offset_pid` of `motor.py`: pixel error to angle error,
PID update (with its default `dt = 1.0`), rate limit, integer clamp,
minimum-movement gate, PWM command.  Returns the new state, the issued
duty-cycle command (if any), and the Boolean return value. -/
def move_by_offset_pid (s : State) (pixel_offset : ℚ) : State × Option ℚ × Bool :=
  let angle_error := pixel_offset / pixels_per_degree
  let r := s.pid.update angle_error 1
  let angle_change := rate_limit r.1
  let target_angle := clamp_angle (s.current_angle + angle_change)
  if |(target_angle : ℚ) - s.current_angle| < MIN_MOVEMENT then
    ({ s with pid := r.2 }, none, false)
  else
    ({ current_angle := (target_angle : ℚ), pid := r.2 },
     some (angle_to_duty_cycle (target_angle : ℚ)), true)

end MotorPID

/-! ## Helper lemmas -/

theorem containsAux_iff (pat l : List Char) :
    containsAux pat l = true ↔ pat <:+: l := by
  induction l with
  | nil => simp [containsAux, List.isEmpty_iff]
  | cons c rest ih =>
      simp only [containsAux, Bool.or_eq_true, List.isPrefixOf_iff_prefix, ih,
        List.infix_cons_iff]

theorem strContains_mute_of_unmute (l : String)
    (h : strContains l "unmute" = true) : strContains l "mute" = true := by
  rw [strContains, containsAux_iff] at h ⊢
  exact (show "mute".toList <:+: "unmute".toList from ⟨['u', 'n'], [], rfl⟩).trans h

theorem process_command_shutdown_eq (t : String) (s : StateManager) :
    (process_command t s).state.shutdown_requested = s.shutdown_requested := by
  unfold process_command
  dsimp only
  split_ifs <;> rfl

/-! ## Claims about the command dispatcher and the flags -/

/-- C2: once `muted` is true, dispatching any command text returns
handled = true; if the lowercased text contains the unmute phrase the
`muted` flag is cleared and an acknowledgment effect is emitted, and for
every other text no flag changes and no sound effect is emitted — all
other command parsing is overridden while muted. -/
theorem muted_precedence (text : String) (s : StateManager) (h : s.muted = true) :
    (process_command text s).handled = true ∧
    (strContains (strLower text) "unmute" = true →
      (process_command text s).state = { s with muted := false } ∧
      (process_command text s).effects = ["acknowledge"]) ∧
    (strContains (strLower text) "unmute" = false →
      (process_command text s).state = s ∧
      (process_command text s).effects = []) := by
  unfold process_command
  cases hC : strContains (strLower text) "unmute" <;> simp [h, hC]

/-- Witness for C2 at a concrete muted state and a tracking command. -/
theorem muted_precedence_witness :
    (StateManager.mk true true false).muted = true ∧
    ((process_command "stop tracking" (StateManager.mk true true false)).handled = true ∧
    (strContains (strLower "stop tracking") "unmute" = true →
      (process_command "stop tracking" (StateManager.mk true true false)).state
        = { StateManager.mk true true false with muted := false } ∧
      (process_command "stop tracking" (StateManager.mk true true false)).effects
        = ["acknowledge"]) ∧
    (strContains (strLower "stop tracking") "unmute" = false →
      (process_command "stop tracking" (StateManager.mk true true false)).state
        = StateManager.mk true true false ∧
      (process_command "stop tracking" (StateManager.mk true true false)).effects = [])) :=
  ⟨rfl, muted_precedence "stop tracking" (StateManager.mk true true false) rfl⟩

/-- C8: the shutdown flag is monotonic — once `request_shutdown` has set
it, no trace of flag-mutating operations (command dispatches or further
shutdown requests) ever clears it, so `should_shutdown` stays true. -/
theorem shutdown_monotone (ops : List SysOp) (s : StateManager)
    (h : s.shutdown_requested = true) :
    (applyOps s ops).shutdown_requested = true ∧
    (applyOps s ops).should_shutdown = true := by
  suffices hs : (applyOps s ops).shutdown_requested = true from
    ⟨hs, by rw [StateManager.should_shutdown]; exact hs⟩
  induction ops generalizing s with
  | nil => exact h
  | cons op rest ih =>
      cases op with
      | requestShutdown => exact ih _ rfl
      | processCommand t =>
          exact ih _ ((process_command_shutdown_eq t s).trans h)

/-- Witness for C8 on a concrete trace following a shutdown request. -/
theorem shutdown_monotone_witness :
    (StateManager.init.request_shutdown).shutdown_requested = true ∧
    ((applyOps StateManager.init.request_shutdown
        [SysOp.processCommand "unmute", SysOp.processCommand "stop tracking",
         SysOp.requestShutdown]).shutdown_requested = true ∧
     (applyOps StateManager.init.request_shutdown
        [SysOp.processCommand "unmute", SysOp.processCommand "stop tracking",
         SysOp.requestShutdown]).should_shutdown = true) :=
  ⟨rfl, shutdown_monotone _ StateManager.init.request_shutdown rfl⟩

/-- C9: while not muted, any text whose lowercase form contains the
unmute phrase also contains the mute phrase as a substring, so the mute
branch fires first: `muted` is set to true, handled = true is returned,
and no acknowledgment is emitted. -/
theorem unmute_text_mutes (text : String) (s : StateManager)
    (h : s.muted = false) (hu : strContains (strLower text) "unmute" = true) :
    process_command text s =
      { state := { s with muted := true }, effects := [], handled := true } := by
  have hm := strContains_mute_of_unmute _ hu
  unfold process_command
  simp [h, hm]

/-! ## Analytic helper lemmas for the tanh interpolation loop -/

theorem abs_tanh_le_one (x : ℝ) : |Real.tanh x| ≤ 1 := by
  rw [Real.tanh_eq_sinh_div_cosh, abs_div, abs_of_pos (Real.cosh_pos x),
    div_le_one (Real.cosh_pos x), Real.abs_sinh]
  exact le_of_lt (lt_of_lt_of_eq (Real.sinh_lt_cosh _) (Real.cosh_abs x))

theorem tanh_nonneg_of_nonneg {x : ℝ} (hx : 0 ≤ x) : 0 ≤ Real.tanh x := by
  rw [Real.tanh_eq_sinh_div_cosh]
  exact div_nonneg (Real.sinh_nonneg_iff.mpr hx) (Real.cosh_pos x).le

theorem sinh_le_aux {x : ℝ} (h1 : x < 1) : Real.sinh x ≤ ((1 - x)⁻¹ + x - 1) / 2 := by
  have hx1 : (0:ℝ) < 1 - x := by linarith
  have hA : 1 - x ≤ Real.exp (-x) := by linarith [Real.add_one_le_exp (-x)]
  have h1i : 1 - x ≤ (Real.exp x)⁻¹ := by rw [← Real.exp_neg]; exact hA
  have hB : Real.exp x ≤ (1 - x)⁻¹ := by
    rw [← one_div, le_div_iff₀ hx1]
    calc Real.exp x * (1 - x) ≤ Real.exp x * (Real.exp x)⁻¹ :=
          mul_le_mul_of_nonneg_left h1i (Real.exp_pos x).le
      _ = 1 := mul_inv_cancel₀ (ne_of_gt (Real.exp_pos x))
  rw [Real.sinh_eq]
  linarith

theorem tanh_le_linear {y : ℝ} (h0 : 0 ≤ y) (h1 : y ≤ 34/37) :
    Real.tanh y ≤ 20/3 * y := by
  have hy1 : y < 1 := by linarith
  have hx1 : (0:ℝ) < 1 - y := by linarith
  have ht : Real.tanh y ≤ Real.sinh y := by
    rw [Real.tanh_eq_sinh_div_cosh]
    exact div_le_self (Real.sinh_nonneg_iff.mpr h0) (Real.one_le_cosh y)
  have hs := sinh_le_aux hy1
  have tpos : 0 < (1 - y)⁻¹ := inv_pos.mpr hx1
  have hinv : (1 - y)⁻¹ * (1 - y) = 1 := inv_mul_cancel₀ (ne_of_gt hx1)
  have h37 : (3:ℝ)/37 ≤ 1 - y := by linarith
  have hbound : (1 - y)⁻¹ * (3/37) ≤ 1 := by
    calc (1 - y)⁻¹ * (3/37) ≤ (1 - y)⁻¹ * (1 - y) :=
          mul_le_mul_of_nonneg_left h37 tpos.le
      _ = 1 := hinv
  have hinvle : (1 - y)⁻¹ ≤ 37/3 := by linarith
  have hfinal : ((1 - y)⁻¹ + y - 1)/2 ≤ 20/3 * y := by
    nlinarith [hinv, mul_le_mul_of_nonneg_right hinvle h0]
  linarith

namespace MotorThreaded

theorem stepOf_eq (e : ℝ) : stepOf e = 3/2 * Real.tanh (e / 10) := by
  rw [stepOf, dt, sigmoid_scale, MAX_SPEED]
  push_cast
  ring

theorem gate_eq : (MIN_MOVEMENT : ℝ) * dt = 1/1000 := by
  rw [MIN_MOVEMENT, dt]
  push_cast
  norm_num

theorem stepOf_le (e : ℝ) : |stepOf e| ≤ 3/2 := by
  rw [stepOf_eq, abs_mul, abs_of_pos (show (0:ℝ) < 3/2 by norm_num)]
  nlinarith [HeyR2.abs_tanh_le_one (e / 10), abs_nonneg (Real.tanh (e / 10))]

theorem stepOf_pos {e : ℝ} (he : 0 < e) : 0 < stepOf e := by
  rw [stepOf_eq]
  have htanh : 0 < Real.tanh (e / 10) := by
    rw [Real.tanh_eq_sinh_div_cosh]
    exact div_pos (Real.sinh_pos_iff.mpr (by linarith)) (Real.cosh_pos _)
  linarith

theorem stepOf_le_self {e : ℝ} (he : 0 < e) : stepOf e ≤ e := by
  rw [stepOf_eq]
  rcases le_or_lt e 9 with h9 | h9
  · have h := HeyR2.tanh_le_linear (y := e / 10) (by linarith) (by linarith)
    linarith
  · have h := le_of_abs_le (HeyR2.abs_tanh_le_one (e / 10))
    linarith

theorem stepOf_neg_arg (e : ℝ) : stepOf (-e) = -stepOf e := by
  rw [stepOf_eq, stepOf_eq, neg_div, Real.tanh_neg]
  ring

theorem stepOf_zero : stepOf 0 = 0 := by
  rw [stepOf_eq, zero_div, Real.tanh_zero, mul_zero]

theorem clampR_mem (a : ℝ) : 0 ≤ clampR a ∧ clampR a ≤ 180 := by
  rw [clampR]
  exact ⟨le_max_left _ _, max_le (by norm_num) (min_le_left _ _)⟩

theorem clampR_eq_self {a : ℝ} (h0 : 0 ≤ a) (h1 : a ≤ 180) : clampR a = a := by
  rw [clampR, min_eq_right h1, max_eq_right h0]

theorem clampR_dist (a : ℝ) {c : ℝ} (h0 : 0 ≤ c) (h1 : c ≤ 180) :
    |clampR a - c| ≤ |a - c| := by
  rcases le_total a 0 with ha | ha
  · rw [clampR, min_eq_right (by linarith : a ≤ 180), max_eq_left ha,
      abs_of_nonpos (by linarith), abs_of_nonpos (by linarith)]
    linarith
  · rcases le_total a 180 with hb | hb
    · rw [clampR_eq_self ha hb]
    · rw [clampR, min_eq_left hb, max_eq_right (show (0:ℝ) ≤ 180 by norm_num),
        abs_of_nonneg (by linarith), abs_of_nonneg (by linarith)]
      linarith

theorem tick_fixed (t : ℝ) : tick t t = (t, false) := by
  have hgate : ¬ (|stepOf (t - t)| > (MIN_MOVEMENT : ℝ) * dt) := by
    rw [sub_self, stepOf_zero, abs_zero, gate_eq]
    norm_num
  rw [tick, if_neg hgate]

end MotorThreaded

/-! ## Claims about the actuation control loop -/

/-- C1: one tick of the threaded actuation loop keeps `current_angle`
inside `[0, 180]` (it is clamped before being stored or commanded) and
changes it by at most `MAX_SPEED * dt = 1.5` degrees, because the step
`tanh(error / sigmoid_scale) * MAX_SPEED * dt` has magnitude at most
`MAX_SPEED * dt`. -/
theorem tick_bounded_safe (target current : ℝ)
    (h0 : 0 ≤ current) (h1 : current ≤ 180) :
    (0 ≤ (MotorThreaded.tick target current).1 ∧
      (MotorThreaded.tick target current).1 ≤ 180) ∧
    |(MotorThreaded.tick target current).1 - current|
        ≤ (MotorThreaded.MAX_SPEED : ℝ) * MotorThreaded.dt := by
  have hms : (MotorThreaded.MAX_SPEED : ℝ) * MotorThreaded.dt = 3/2 := by
    rw [MotorThreaded.MAX_SPEED, MotorThreaded.dt]
    push_cast
    norm_num
  rw [MotorThreaded.tick]
  split_ifs with h
  · dsimp only
    refine ⟨MotorThreaded.clampR_mem _, ?_⟩
    calc |MotorThreaded.clampR (current + MotorThreaded.stepOf (target - current)) - current|
        ≤ |current + MotorThreaded.stepOf (target - current) - current| :=
          MotorThreaded.clampR_dist _ h0 h1
      _ = |MotorThreaded.stepOf (target - current)| := by ring_nf
      _ ≤ 3/2 := MotorThreaded.stepOf_le _
      _ = (MotorThreaded.MAX_SPEED : ℝ) * MotorThreaded.dt := hms.symm
  · dsimp only
    exact ⟨⟨h0, h1⟩, by rw [sub_self, abs_zero, hms]; norm_num⟩

/-- Witness for C1 at `target = 100`, `current = 90`. -/
theorem tick_bounded_safe_witness :
    ((0:ℝ) ≤ 90 ∧ (90:ℝ) ≤ 180) ∧
    ((0 ≤ (MotorThreaded.tick 100 90).1 ∧ (MotorThreaded.tick 100 90).1 ≤ 180) ∧
     |(MotorThreaded.tick 100 90).1 - 90|
        ≤ (MotorThreaded.MAX_SPEED : ℝ) * MotorThreaded.dt) :=
  ⟨⟨by norm_num, by norm_num⟩, tick_bounded_safe 100 90 (by norm_num) (by norm_num)⟩

/-- C5: if `target_angle = current_angle` at the start of a tick then
every further tick with the target unchanged issues no PWM command and
never modifies `current_angle`: the step is 0, which fails the
`|step| > MIN_MOVEMENT * dt` gate. -/
theorem steady_state_no_commands (t : ℝ) (n : ℕ) :
    MotorThreaded.iterTick t t n = t ∧
    (MotorThreaded.tick t (MotorThreaded.iterTick t t n)).2 = false := by
  induction n with
  | zero =>
      refine ⟨rfl, ?_⟩
      show (MotorThreaded.tick t t).2 = false
      rw [MotorThreaded.tick_fixed]
  | succ n ih =>
      have h1 : MotorThreaded.iterTick t t (n + 1) = t := by
        show (MotorThreaded.tick t (MotorThreaded.iterTick t t n)).1 = t
        rw [ih.1, MotorThreaded.tick_fixed]
      exact ⟨h1, by rw [h1, MotorThreaded.tick_fixed]⟩

/-- C4 counterexample: at `current = 90`, `target = 90 + 1/200` (a
nonzero error of 0.005 degrees, reachable after a step target change)
the tick leaves `current_angle` unchanged and issues no command, because
the computed step `1.5 * tanh(0.0005)` fails the minimum-movement gate;
hence repeated ticks do NOT strictly reduce `|error|` until zero. -/
theorem tick_stall_cex :
    ((90:ℝ) + 1/200) - 90 ≠ 0 ∧
    MotorThreaded.tick (90 + 1/200) 90 = (90, false) := by
  constructor
  · norm_num
  · have harg : ((90:ℝ) + 1/200) - 90 = 1/200 := by norm_num
    have htanh_nonneg : 0 ≤ Real.tanh (1/2000) :=
      tanh_nonneg_of_nonneg (by norm_num)
    have htanh_le : Real.tanh (1/2000) ≤ 1/1999 := by
      have hs := sinh_le_aux (x := 1/2000) (by norm_num)
      have ht : Real.tanh (1/2000) ≤ Real.sinh (1/2000) := by
        rw [Real.tanh_eq_sinh_div_cosh]
        exact div_le_self (Real.sinh_nonneg_iff.mpr (by norm_num)) (Real.one_le_cosh _)
      calc Real.tanh (1/2000) ≤ Real.sinh (1/2000) := ht
        _ ≤ ((1 - 1/2000)⁻¹ + 1/2000 - 1) / 2 := hs
        _ ≤ 1/1999 := by norm_num
    have hgate : ¬ (|MotorThreaded.stepOf (((90:ℝ) + 1/200) - 90)| >
        (MotorThreaded.MIN_MOVEMENT : ℝ) * MotorThreaded.dt) := by
      rw [harg, MotorThreaded.stepOf_eq, MotorThreaded.gate_eq,
        show (1:ℝ)/200/10 = 1/2000 by norm_num,
        abs_of_nonneg (by linarith : (0:ℝ) ≤ 3/2 * Real.tanh (1/2000)), not_lt]
      linarith
    rw [MotorThreaded.tick, if_neg hgate]

/-- C4 amended: with both angles in `[0, 180]` and a fixed target, each
tick either leaves `current_angle` unchanged (when the step fails the
minimum-movement gate — which happens for all sufficiently small nonzero
errors, so `|error|` converges to a small residue rather than to zero),
or moves `current_angle` strictly toward the target without overshoot:
`|error|` never increases, strictly decreases on every commanded tick,
and the sign of the error never flips. -/
theorem tick_monotone_no_overshoot (target current : ℝ)
    (hc0 : 0 ≤ current) (hc1 : current ≤ 180)
    (ht0 : 0 ≤ target) (ht1 : target ≤ 180) :
    ((MotorThreaded.tick target current).2 = false →
        (MotorThreaded.tick target current).1 = current) ∧
    |target - (MotorThreaded.tick target current).1| ≤ |target - current| ∧
    0 ≤ (target - (MotorThreaded.tick target current).1) * (target - current) ∧
    ((MotorThreaded.tick target current).2 = true →
        |target - (MotorThreaded.tick target current).1| < |target - current|) := by
  rw [MotorThreaded.tick]
  split_ifs with h
  · dsimp only
    have hene : target - current ≠ 0 := by
      intro h0
      rw [h0, MotorThreaded.stepOf_zero, abs_zero, MotorThreaded.gate_eq] at h
      linarith
    rcases hene.lt_or_lt with hneg | hpos
    · -- negative error: target below current
      have hpos2 : 0 < current - target := by linarith
      have hp := MotorThreaded.stepOf_pos hpos2
      have hle := MotorThreaded.stepOf_le_self hpos2
      have hrew : MotorThreaded.stepOf (target - current)
          = -MotorThreaded.stepOf (current - target) := by
        rw [show target - current = -(current - target) by ring,
          MotorThreaded.stepOf_neg_arg]
      have hclamp : MotorThreaded.clampR (current + MotorThreaded.stepOf (target - current))
          = current + MotorThreaded.stepOf (target - current) := by
        rw [hrew]
        exact MotorThreaded.clampR_eq_self (by linarith) (by linarith)
      rw [hclamp, hrew]
      have hkey : target - (current + -MotorThreaded.stepOf (current - target))
          = -((current - target) - MotorThreaded.stepOf (current - target)) := by ring
      refine ⟨fun hh => absurd hh (by decide), ?_, ?_, fun _ => ?_⟩
      · rw [hkey, abs_neg, abs_of_nonneg (by linarith),
          show target - current = -(current - target) by ring, abs_neg,
          abs_of_pos hpos2]
        linarith
      · rw [hkey, show (-((current - target) - MotorThreaded.stepOf (current - target)))
              * (target - current)
            = ((current - target) - MotorThreaded.stepOf (current - target))
              * (current - target) by ring]
        exact mul_nonneg (by linarith) hpos2.le
      · rw [hkey, abs_neg, abs_of_nonneg (by linarith),
          show target - current = -(current - target) by ring, abs_neg,
          abs_of_pos hpos2]
        linarith
    · -- positive error: target above current
      have hp := MotorThreaded.stepOf_pos hpos
      have hle := MotorThreaded.stepOf_le_self hpos
      have hclamp : MotorThreaded.clampR (current + MotorThreaded.stepOf (target - current))
          = current + MotorThreaded.stepOf (target - current) :=
        MotorThreaded.clampR_eq_self (by linarith) (by linarith)
      rw [hclamp]
      have hkey : target - (current + MotorThreaded.stepOf (target - current))
          = (target - current) - MotorThreaded.stepOf (target - current) := by ring
      refine ⟨fun hh => absurd hh (by decide), ?_, ?_, fun _ => ?_⟩
      · rw [hkey, abs_of_nonneg (by linarith), abs_of_pos hpos]
        linarith
      · rw [hkey]
        exact mul_nonneg (by linarith) hpos.le
      · rw [hkey, abs_of_nonneg (by linarith), abs_of_pos hpos]
        linarith
  · dsimp only
    exact ⟨fun _ => rfl, le_refl _, mul_self_nonneg _, fun hh => absurd hh (by decide)⟩

/-- Witness for the amended C4 at `target = 100`, `current = 90`. -/
theorem tick_monotone_no_overshoot_witness :
    ((0:ℝ) ≤ 90 ∧ (90:ℝ) ≤ 180 ∧ (0:ℝ) ≤ 100 ∧ (100:ℝ) ≤ 180) ∧
    (((MotorThreaded.tick 100 90).2 = false → (MotorThreaded.tick 100 90).1 = 90) ∧
     |100 - (MotorThreaded.tick 100 90).1| ≤ |(100:ℝ) - 90| ∧
     0 ≤ (100 - (MotorThreaded.tick 100 90).1) * ((100:ℝ) - 90) ∧
     ((MotorThreaded.tick 100 90).2 = true →
        |100 - (MotorThreaded.tick 100 90).1| < |(100:ℝ) - 90|)) :=
  ⟨⟨by norm_num, by norm_num, by norm_num, by norm_num⟩,
   tick_monotone_no_overshoot 100 90 (by norm_num) (by norm_num)
     (by norm_num) (by norm_num)⟩

/-! ## Claims about the target mapper (deadband and scenario) -/

/-- C3: whenever the post-EMA filtered offset lies inside the deadband,
the threaded mapper `set_target_from_offset` leaves `target_angle` (and
`current_angle`) unchanged, and the `motor_fast` mapper
`move_by_offset_pid` leaves `current_angle` unchanged, issues no
actuator command, and resets the derivative memory `previous_error`
to 0 in that branch. -/
theorem deadband_no_motion (s : MotorThreaded.State) (f : MotorFast.State) (p q : ℚ)
    (h1 : |MotorThreaded.ema_alpha * p + (1 - MotorThreaded.ema_alpha) * s.ema_offset|
            < MotorThreaded.DEADBAND_PIXELS)
    (h2 : |MotorFast.ema_alpha * q + (1 - MotorFast.ema_alpha) * f.ema_offset|
            < MotorFast.DEADBAND_PIXELS) :
    (MotorThreaded.set_target_from_offset s p).target_angle = s.target_angle ∧
    (MotorThreaded.set_target_from_offset s p).current_angle = s.current_angle ∧
    (MotorFast.move_by_offset_pid f q).1.current_angle = f.current_angle ∧
    (MotorFast.move_by_offset_pid f q).2.1 = none ∧
    (MotorFast.move_by_offset_pid f q).2.2 = false ∧
    (MotorFast.move_by_offset_pid f q).1.previous_error = 0 := by
  unfold MotorThreaded.set_target_from_offset MotorFast.move_by_offset_pid
  dsimp only
  rw [if_pos h1, if_pos h2]
  exact ⟨rfl, rfl, rfl, rfl, rfl, rfl⟩

/-- Witness for C3: a 5 px raw offset into settled (zero) filters stays
inside both deadbands and causes no motion. -/
theorem deadband_no_motion_witness :
    |MotorThreaded.ema_alpha * 5 + (1 - MotorThreaded.ema_alpha) * (0:ℚ)|
        < MotorThreaded.DEADBAND_PIXELS ∧
    |MotorFast.ema_alpha * 5 + (1 - MotorFast.ema_alpha) * (0:ℚ)|
        < MotorFast.DEADBAND_PIXELS ∧
    ((MotorThreaded.set_target_from_offset ⟨90, 90, 0⟩ 5).target_angle = (90:ℚ) ∧
     (MotorThreaded.set_target_from_offset ⟨90, 90, 0⟩ 5).current_angle = (90:ℚ) ∧
     (MotorFast.move_by_offset_pid ⟨90, 3, 0⟩ 5).1.current_angle = (90:ℚ) ∧
     (MotorFast.move_by_offset_pid ⟨90, 3, 0⟩ 5).2.1 = none ∧
     (MotorFast.move_by_offset_pid ⟨90, 3, 0⟩ 5).2.2 = false ∧
     (MotorFast.move_by_offset_pid ⟨90, 3, 0⟩ 5).1.previous_error = 0) :=
  ⟨by norm_num [abs_lt, MotorThreaded.ema_alpha, MotorThreaded.DEADBAND_PIXELS],
   by norm_num [abs_lt, MotorFast.ema_alpha, MotorFast.DEADBAND_PIXELS],
   deadband_no_motion ⟨90, 90, 0⟩ ⟨90, 3, 0⟩ 5 5
     (by norm_num [abs_lt, MotorThreaded.ema_alpha, MotorThreaded.DEADBAND_PIXELS])
     (by norm_num [abs_lt, MotorFast.ema_alpha, MotorFast.DEADBAND_PIXELS])⟩

/-- C6: with `pixels_per_degree = 640/77 ≈ 8.3`, a settled filtered
offset of 200 px (past the 15 px deadband) and mapper gain `Kp = 0.15`,
`set_target_from_offset` computes an angle error of `385/16 = 24.0625 ≈
24.1` degrees and an angle change of `231/64 = 3.609375 ≈ 3.6` degrees,
and stores `target_angle = clamp(current_angle + 231/64, 0, 180)`. -/
theorem scenario_offset200 (t0 c : ℚ) :
    (MotorThreaded.set_target_from_offset ⟨t0, c, 200⟩ 200).ema_offset = 200 ∧
    (MotorThreaded.set_target_from_offset ⟨t0, c, 200⟩ 200).target_angle
        = MotorThreaded.clamp_angle (c + 231/64) ∧
    MotorThreaded.pixels_per_degree = 640/77 ∧
    |MotorThreaded.pixels_per_degree - 83/10| < 2/100 ∧
    (200:ℚ) / MotorThreaded.pixels_per_degree = 385/16 ∧
    |(385:ℚ)/16 - 241/10| < 5/100 ∧
    (385:ℚ)/16 * MotorThreaded.Kp = 231/64 ∧
    |(231:ℚ)/64 - 36/10| < 1/100 := by
  refine ⟨?_, ?_, by norm_num [MotorThreaded.pixels_per_degree,
      MotorThreaded.IMG_WIDTH, MotorThreaded.CAM_FOV], by norm_num
      [abs_lt, MotorThreaded.pixels_per_degree, MotorThreaded.IMG_WIDTH, MotorThreaded.CAM_FOV],
      by norm_num [MotorThreaded.pixels_per_degree, MotorThreaded.IMG_WIDTH,
      MotorThreaded.CAM_FOV], by norm_num [abs_lt], by norm_num [MotorThreaded.Kp], by norm_num [abs_lt]⟩ <;>
  · unfold MotorThreaded.set_target_from_offset
    dsimp only
    rw [if_neg (by norm_num [abs_lt, MotorThreaded.ema_alpha, MotorThreaded.DEADBAND_PIXELS])]
    norm_num [MotorThreaded.ema_alpha, MotorThreaded.pixels_per_degree,
      MotorThreaded.IMG_WIDTH, MotorThreaded.CAM_FOV, MotorThreaded.Kp]

/-! ## Claims about the direct-PID motor (motor.py) -/

theorem int_dist_lt_half_iff (t n : ℤ) : |(t:ℚ) - (n:ℚ)| < 1/2 ↔ t = n := by
  rw [← Int.cast_sub, ← Int.cast_abs]
  constructor
  · intro hlt
    by_contra hne
    have h1 : 1 ≤ |t - n| := Int.one_le_abs (sub_ne_zero.mpr hne)
    have h1q : (1:ℚ) ≤ ((|t - n| : ℤ) : ℚ) := by exact_mod_cast h1
    linarith
  · intro he
    subst he
    simp

/-- C7: `PIDController.update` accumulates `integral += error*dt` and
clamps it to `±integral_limit` before multiplying by `Ki`; computes the
raw derivative `(error − prev_error)/dt` and exponentially smooths it
with the `derivative_filter` coefficient before multiplying by `Kd`;
returns exactly `P + I + D`; and the caller `move_by_offset_pid` applies
the `±MAX_SPEED_PER_UPDATE` rate limit to the output (the same code path
regardless of which gains — PID or proportional-only — are configured). -/
theorem pid_update_follows_spec (pid : MotorPID.PIDController) (e dt x off : ℚ)
    (s : MotorPID.State) (hlim : 0 ≤ pid.integral_limit) :
    (pid.update e dt).2.integral
        = max (-pid.integral_limit) (min pid.integral_limit (pid.integral + e * dt)) ∧
    |(pid.update e dt).2.integral| ≤ pid.integral_limit ∧
    (pid.update e dt).2.prev_derivative
        = pid.derivative_filter * ((e - pid.prev_error) / dt)
          + (1 - pid.derivative_filter) * pid.prev_derivative ∧
    (pid.update e dt).2.prev_error = e ∧
    (pid.update e dt).1
        = pid.Kp * e + pid.Ki * (pid.update e dt).2.integral
          + pid.Kd * (pid.update e dt).2.prev_derivative ∧
    |MotorPID.rate_limit x| ≤ MotorPID.MAX_SPEED_PER_UPDATE ∧
    (MotorPID.move_by_offset_pid s off).1.pid
        = (s.pid.update (off / MotorPID.pixels_per_degree) 1).2 ∧
    ((MotorPID.move_by_offset_pid s off).1.current_angle = s.current_angle ∨
     (MotorPID.move_by_offset_pid s off).1.current_angle
        = ((MotorPID.clamp_angle (s.current_angle
            + MotorPID.rate_limit
                (s.pid.update (off / MotorPID.pixels_per_degree) 1).1) : ℤ) : ℚ)) := by
  have hI : (pid.update e dt).2.integral
      = max (-pid.integral_limit) (min pid.integral_limit (pid.integral + e * dt)) := rfl
  refine ⟨hI, ?_, rfl, rfl, rfl, ?_, ?_, ?_⟩
  · rw [hI]
    exact abs_le.mpr ⟨le_max_left _ _, max_le (by linarith) (min_le_left _ _)⟩
  · rw [MotorPID.rate_limit]
    refine abs_le.mpr ⟨le_max_left _ _, max_le ?_ (min_le_left _ _)⟩
    rw [MotorPID.MAX_SPEED_PER_UPDATE]
    norm_num
  · unfold MotorPID.move_by_offset_pid
    dsimp only
    split_ifs <;> rfl
  · unfold MotorPID.move_by_offset_pid
    dsimp only
    split_ifs with hgate
    · exact Or.inl rfl
    · exact Or.inr rfl

/-- Witness for C7 with the proportional-only controller of `motor.py`
(`Kp = 0.2, Ki = Kd = 0`) at a concrete error. -/
theorem pid_update_follows_spec_witness :
    0 ≤ (MotorPID.PIDController.make (2/10) 0 0).integral_limit ∧
    ((MotorPID.PIDController.make (2/10) 0 0).update 3 1).2.integral
        = max (-(MotorPID.PIDController.make (2/10) 0 0).integral_limit)
            (min (MotorPID.PIDController.make (2/10) 0 0).integral_limit
              ((MotorPID.PIDController.make (2/10) 0 0).integral + 3 * 1)) ∧
    |((MotorPID.PIDController.make (2/10) 0 0).update 3 1).2.integral|
        ≤ (MotorPID.PIDController.make (2/10) 0 0).integral_limit ∧
    ((MotorPID.PIDController.make (2/10) 0 0).update 3 1).2.prev_derivative
        = (MotorPID.PIDController.make (2/10) 0 0).derivative_filter
            * ((3 - (MotorPID.PIDController.make (2/10) 0 0).prev_error) / 1)
          + (1 - (MotorPID.PIDController.make (2/10) 0 0).derivative_filter)
            * (MotorPID.PIDController.make (2/10) 0 0).prev_derivative ∧
    ((MotorPID.PIDController.make (2/10) 0 0).update 3 1).2.prev_error = 3 ∧
    ((MotorPID.PIDController.make (2/10) 0 0).update 3 1).1
        = (MotorPID.PIDController.make (2/10) 0 0).Kp * 3
          + (MotorPID.PIDController.make (2/10) 0 0).Ki
              * ((MotorPID.PIDController.make (2/10) 0 0).update 3 1).2.integral
          + (MotorPID.PIDController.make (2/10) 0 0).Kd
              * ((MotorPID.PIDController.make (2/10) 0 0).update 3 1).2.prev_derivative ∧
    |MotorPID.rate_limit 7| ≤ MotorPID.MAX_SPEED_PER_UPDATE ∧
    (MotorPID.move_by_offset_pid ⟨90, MotorPID.PIDController.make (2/10) 0 0⟩ 100).1.pid
        = ((MotorPID.PIDController.make (2/10) 0 0).update
            (100 / MotorPID.pixels_per_degree) 1).2 ∧
    ((MotorPID.move_by_offset_pid ⟨90, MotorPID.PIDController.make (2/10) 0 0⟩ 100).1.current_angle
        = (⟨90, MotorPID.PIDController.make (2/10) 0 0⟩ : MotorPID.State).current_angle ∨
     (MotorPID.move_by_offset_pid ⟨90, MotorPID.PIDController.make (2/10) 0 0⟩ 100).1.current_angle
        = ((MotorPID.clamp_angle
            ((⟨90, MotorPID.PIDController.make (2/10) 0 0⟩ : MotorPID.State).current_angle
              + MotorPID.rate_limit
                  ((MotorPID.PIDController.make (2/10) 0 0).update
                    (100 / MotorPID.pixels_per_degree) 1).1) : ℤ) : ℚ)) :=
  ⟨by norm_num [MotorPID.PIDController.make],
   pid_update_follows_spec (MotorPID.PIDController.make (2/10) 0 0) 3 1 7 100
     ⟨90, MotorPID.PIDController.make (2/10) 0 0⟩
     (by norm_num [MotorPID.PIDController.make])⟩

/-- C10: in the direct-PID Motor of `motor.py`, `clamp_angle` truncates
the clamped value toward zero (equivalently, floors it, since the
clamped value is nonnegative); `current_angle` is an integer after
`set_angle`, `move_slow` and `move_by_offset_pid`; and with an integer
`current_angle` the `MIN_MOVEMENT = 0.5` gate fires exactly when the
truncated target equals the current angle, so any change whose truncated
effect is below one degree produces no motion — unlike the threaded
variant, whose clamp preserves fractional angles. -/
theorem integer_clamp_behavior (s : MotorPID.State) (n : ℤ) (a off : ℚ)
    (h : s.current_angle = (n : ℚ)) :
    MotorPID.clamp_angle a = ⌊max 0 (min 180 a)⌋ ∧
    (∃ m : ℤ, (MotorPID.set_angle s a).1.current_angle = (m : ℚ)) ∧
    (∃ m : ℤ, (MotorPID.move_slow s a).current_angle = (m : ℚ)) ∧
    (∃ m : ℤ, (MotorPID.move_by_offset_pid s off).1.current_angle = (m : ℚ)) ∧
    ((MotorPID.move_by_offset_pid s off).2.2 = false ↔
       MotorPID.clamp_angle (s.current_angle
         + MotorPID.rate_limit (s.pid.update (off / MotorPID.pixels_per_degree) 1).1) = n) ∧
    ((MotorPID.move_by_offset_pid s off).2.2 = false →
       (MotorPID.move_by_offset_pid s off).1.current_angle = s.current_angle) ∧
    MotorThreaded.clamp_angle (181/2) = 181/2 ∧
    ((MotorPID.clamp_angle (181/2) : ℤ) : ℚ) = 90 := by
  refine ⟨?_, ⟨MotorPID.clamp_angle a, rfl⟩, ⟨MotorPID.clamp_angle a, rfl⟩, ?_, ?_, ?_, ?_, ?_⟩
  · rw [MotorPID.clamp_angle, MotorPID.pyInt,
      if_neg (not_lt.mpr (le_max_left 0 (min 180 a)))]
  · unfold MotorPID.move_by_offset_pid
    dsimp only
    split_ifs with hgate
    · exact ⟨n, h⟩
    · exact ⟨_, rfl⟩
  · unfold MotorPID.move_by_offset_pid
    dsimp only
    rw [h, MotorPID.MIN_MOVEMENT]
    split_ifs with hgate
    · exact iff_of_true rfl ((int_dist_lt_half_iff _ n).mp hgate)
    · constructor
      · intro hh
        exact absurd hh (by decide)
      · intro hRHS
        exfalso
        apply hgate
        rw [hRHS]
        simp
  · unfold MotorPID.move_by_offset_pid
    dsimp only
    split_ifs with hgate
    · intro _
      rfl
    · intro hh
      exact absurd hh (by decide)
  · rw [MotorThreaded.clamp_angle]
    norm_num
  · rw [MotorPID.clamp_angle, MotorPID.pyInt]
    norm_num

/-- Witness for C10 at `current_angle = 90` with a large offset. -/
theorem integer_clamp_behavior_witness :
    (MotorPID.State.mk 90 (MotorPID.PIDController.make (2/10) 0 0)).current_angle
        = ((90 : ℤ) : ℚ) ∧
    (MotorPID.clamp_angle (77/2) = ⌊max 0 (min 180 (77/2 : ℚ))⌋ ∧
     (∃ m : ℤ, (MotorPID.set_angle
        (MotorPID.State.mk 90 (MotorPID.PIDController.make (2/10) 0 0))
          (77/2)).1.current_angle = (m : ℚ)) ∧
     (∃ m : ℤ, (MotorPID.move_slow
        (MotorPID.State.mk 90 (MotorPID.PIDController.make (2/10) 0 0))
          (77/2)).current_angle = (m : ℚ)) ∧
     (∃ m : ℤ, (MotorPID.move_by_offset_pid
        (MotorPID.State.mk 90 (MotorPID.PIDController.make (2/10) 0 0))
          100).1.current_angle = (m : ℚ)) ∧
     ((MotorPID.move_by_offset_pid
        (MotorPID.State.mk 90 (MotorPID.PIDController.make (2/10) 0 0)) 100).2.2 = false ↔
       MotorPID.clamp_angle
         ((MotorPID.State.mk 90 (MotorPID.PIDController.make (2/10) 0 0)).current_angle
           + MotorPID.rate_limit
               ((MotorPID.State.mk 90 (MotorPID.PIDController.make (2/10) 0 0)).pid.update
                 (100 / MotorPID.pixels_per_degree) 1).1) = 90) ∧
     ((MotorPID.move_by_offset_pid
        (MotorPID.State.mk 90 (MotorPID.PIDController.make (2/10) 0 0)) 100).2.2 = false →
       (MotorPID.move_by_offset_pid
         (MotorPID.State.mk 90 (MotorPID.PIDController.make (2/10) 0 0))
           100).1.current_angle
         = (MotorPID.State.mk 90 (MotorPID.PIDController.make (2/10) 0 0)).current_angle) ∧
     MotorThreaded.clamp_angle (181/2) = 181/2 ∧
     ((MotorPID.clamp_angle (181/2) : ℤ) : ℚ) = 90) :=
  ⟨by norm_num,
   integer_clamp_behavior (MotorPID.State.mk 90 (MotorPID.PIDController.make (2/10) 0 0))
     90 (77/2) 100 (by norm_num)⟩

/-- Witness for C9: saying exactly the unmute phrase while unmuted mutes. -/
theorem unmute_text_mutes_witness :
    StateManager.init.muted = false ∧
    strContains (strLower "unmute") "unmute" = true ∧
    process_command "unmute" StateManager.init =
      { state := { StateManager.init with muted := true }, effects := [],
        handled := true } :=
  ⟨rfl, by decide, unmute_text_mutes "unmute" StateManager.init rfl (by decide)⟩

end HeyR2
